import Mathlib

/-!
A shallow embedding of `alchemysession/sqlalchemy.py` (the telethon
SQLAlchemy session store).

The five relations of the store (`version`, `sessions`, `entities`,
`sent_files`, `update_state`) are embedded as lists of row structures
inside a single `Store` value, together with two schema flags tracking
whether the `update_state` table and its `unread_count` column exist
(the only schema facts the migration code manipulates).

SQLAlchemy / telethon primitives are embedded at their documented
interface semantics: `select(...).where(session_id == sid)` is a list
filter, `fetchone` / `.all()[0]` is `List.head?`, `Session.merge` is an
upsert keyed by the table's primary key, `Query.one_or_none` returns
the unique match, `none` on no match, and raises `MultipleResultsFound`
on several matches.  Python-level failures are embedded as
`Except PyErr`.

Each operation definition mirrors one method of the source file; the
line numbers cited in comments refer to `alchemysession/sqlalchemy.py`.
-/

/-- Python-level runtime failures the embedded operations can raise. -/
inductive PyErr where
  | typeError
  | tableExists
  | columnExists
  | multipleResults
deriving DecidableEq, Repr

/-- Opaque byte blobs (auth keys, md5 digests) as lists of byte values. -/
abbrev Bytes := List Nat

/-- `LATEST_VERSION = 2` (line 14). -/
def LATEST_VERSION : Int := 2

/-- One row of the `sessions` table (lines 49-54).
Primary key `(session_id, dc_id)`; `auth_key` is a nullable blob. -/
structure SessionRow where
  session_id : String
  dc_id : Int
  server_address : Option String
  port : Option Int
  auth_key : Option Bytes
deriving DecidableEq, Repr

/-- One row of the `entities` table (lines 55-61).
Primary key `(session_id, id)`; `hash` is NOT NULL, the rest nullable. -/
structure EntityRow where
  session_id : String
  id : Int
  hash : Int
  username : Option String
  phone : Option Int
  name : Option String
deriving DecidableEq, Repr

/-- One row of the `sent_files` table (lines 62-68).
Primary key `(session_id, md5_digest, file_size, type)`. -/
structure SentFileRow where
  session_id : String
  md5_digest : Bytes
  file_size : Option Int
  type : Int
  id : Int
  hash : Int
deriving DecidableEq, Repr

/-- One row of the `update_state` table (lines 69-76).
Primary key `(session_id, entity_id)`. -/
structure UpdateStateRow where
  session_id : String
  entity_id : Int
  pts : Int
  qts : Int
  date : Int
  seq : Int
  unread_count : Option Int
deriving DecidableEq, Repr

/-- The physical store: the five relations plus the two schema facts the
migration code manipulates.  `versionRows` is the content of the
`version` table (a list of integers; the code treats the first row as
the stored version). -/
structure Store where
  versionRows : List Int
  hasUpdateStateTable : Bool
  hasUnreadCountColumn : Bool
  sessions : List SessionRow
  entities : List EntityRow
  sentFiles : List SentFileRow
  updateStates : List UpdateStateRow
deriving DecidableEq, Repr

/-- A store as created fresh by the container (lines 33-40): all five
tables exist, no rows yet, full current schema. -/
def Store.empty : Store := ⟨[], true, true, [], [], [], []⟩

/-! ## Migration engine (`AlchemySessionContainer`, lines 79-98) -/

/-- The version-reading expression of `check_and_upgrade_database`
(lines 86-88): `row = fetchone(); version = row[0][0] if row and row[0]
else 1`.  `row` is the first row of the `version` table; when it is
absent, or its value is the falsy integer `0`, the expression yields
`1`.  Otherwise the code evaluates `row[0][0]`, which subscripts an
integer and raises `TypeError`. -/
def read_version_expr (rows : List Int) : Except PyErr Int :=
  match rows.head? with
  | none => .ok 1
  | some v => if v = 0 then .ok 1 else .error .typeError

/-- `self.update_state.create(self.db_engine)` (line 93): DDL `CREATE
TABLE` with no existence check; raises if the table already exists. -/
def create_update_state_table (st : Store) : Except PyErr Store :=
  if st.hasUpdateStateTable then .error .tableExists
  else .ok { st with hasUpdateStateTable := true }

/-- `self._add_column(self.update_state, Column(unread_count))`
(lines 79-83, 96): DDL `ALTER TABLE ADD COLUMN`; raises if the column
already exists. -/
def add_unread_count_column (st : Store) : Except PyErr Store :=
  if st.hasUnreadCountColumn then .error .columnExists
  else .ok { st with hasUnreadCountColumn := true }

/-- `self.db.execute(self.version.update(values=(LATEST_VERSION,)))`
(line 98): an UPDATE with no WHERE clause sets every existing row of the
`version` table; an empty table stays empty. -/
def set_version_rows (st : Store) (v : Int) : Store :=
  { st with versionRows := st.versionRows.map (fun _ => v) }

/-- `AlchemySessionContainer.check_and_upgrade_database` (lines 85-98),
with the branch structure of the source: return when the read version
equals `LATEST_VERSION`; on version 1 create the `update_state` table
(the local reassignment `version = 3` on line 94 is dead — the variable
is not read again); on version 2 add the `unread_count` column; finally
rewrite the `version` table to `LATEST_VERSION`. -/
def check_and_upgrade_database (st : Store) : Except PyErr Store :=
  match read_version_expr st.versionRows with
  | .error e => .error e
  | .ok v =>
    if v = LATEST_VERSION then .ok st
    else if v = 1 then
      match create_update_state_table st with
      | .error e => .error e
      | .ok st1 => .ok (set_version_rows st1 LATEST_VERSION)
    else if v = 2 then
      match add_unread_count_column st with
      | .error e => .error e
      | .ok st1 => .ok (set_version_rows st1 LATEST_VERSION)
    else .ok (set_version_rows st LATEST_VERSION)

/-- The store state after one call of `check_and_upgrade_database`: a
raised error propagates out of the call before any further statement
runs, leaving the store as it was (every error in the body is raised
before any mutation of the same call). -/
def run_migration (st : Store) : Store :=
  match check_and_upgrade_database st with
  | .ok st1 => st1
  | .error _ => st

/-! ## Session-handle collaborator values -/

/-- Modelled from the spec (§4.4, §6): telethon's `AuthKey` wrapper is
not part of this repository; per the spec "empty bytes deserialize to
'no key'", so `AuthKey(data)` holds no key when `data` is empty or
NULL, and holds the bytes otherwise. -/
structure AuthKey where
  key : Option Bytes
deriving DecidableEq, Repr

/-- `AuthKey(data=d)` for a nullable blob `d`. -/
def AuthKey.ofData (d : Option Bytes) : AuthKey :=
  ⟨match d with
   | none => none
   | some [] => none
   | some l => some l⟩

/-- Modelled from the spec (§4.4): the in-memory fields a telethon
`MemorySession` carries (`_dc_id`, `_server_address`, `_port`,
`_auth_key`), which `AlchemySession` inherits and updates. -/
structure MemState where
  dc_id : Int
  server_address : Option String
  port : Option Int
  auth_key : Option AuthKey
deriving DecidableEq, Repr

/-- `MemorySession.__init__` defaults: dc 0, no address, no port,
no auth key. -/
def MemState.initial : MemState := ⟨0, none, none, none⟩

/-- Modelled from the spec (§6 consumed interface): the update-state
value (`telethon.tl.types.updates.State`) with its timestamp kept as
the integer seconds-since-epoch (UTC) it is stored as. -/
structure UpdatesState where
  pts : Int
  qts : Int
  date : Int
  seq : Int
  unread_count : Option Int
deriving DecidableEq, Repr

/-- Modelled from the spec (§4.4, §9): file-reference objects are a
closed tagged union of exactly two recognized kinds (photo and
document input references, each exposing id and access hash); anything
else is unrecognized. -/
inductive FileRef where
  | photo (id : Int) (access_hash : Int)
  | document (id : Int) (access_hash : Int)
  | other
deriving DecidableEq, Repr

/-- Modelled from the spec (§6): telethon's `_SentFileType` enum giving
the integer `type` column value for the two recognized kinds. -/
inductive SentFileType where
  | document
  | photo
deriving DecidableEq, Repr

def SentFileType.val : SentFileType → Int
  | .document => 0
  | .photo => 1

/-- Modelled from the spec (§4.4): telethon `utils.get_peer_id` applied
to `PeerUser(i)` — the marked id of a user is the raw id itself. -/
def get_peer_id_user (i : Int) : Int := i

/-- Modelled from the spec (§4.4): telethon `utils.get_peer_id` applied
to `PeerChat(i)` — basic groups are marked by negation. -/
def get_peer_id_chat (i : Int) : Int := -i

/-- Modelled from the spec (§4.4): telethon `utils.get_peer_id` applied
to `PeerChannel(i)` — channels are marked as `-(10^12 + i)`. -/
def get_peer_id_channel (i : Int) : Int := -(1000000000000 + i)

/-! ## Primary keys and upsert

Modelled from the spec (§3, §4.4): the ORM model classes `Session`,
`Entity`, `SentFile`, `UpdateState` that `AlchemySession` references
(`self.Session`, `self.db.merge(...)`, `....query.filter(...)`) are not
declared under `src/`; per the spec their rows and primary keys are
those of the schema catalog, and `merge` is an idempotent upsert keyed
by the primary key. -/

/-- Primary-key equality for `sessions`: `(session_id, dc_id)`. -/
def session_pk (a b : SessionRow) : Bool :=
  decide (a.session_id = b.session_id ∧ a.dc_id = b.dc_id)

/-- Primary-key equality for `entities`: `(session_id, id)`. -/
def entity_pk (a b : EntityRow) : Bool :=
  decide (a.session_id = b.session_id ∧ a.id = b.id)

/-- Primary-key equality for `sent_files`:
`(session_id, md5_digest, file_size, type)`. -/
def sent_file_pk (a b : SentFileRow) : Bool :=
  decide (a.session_id = b.session_id ∧ a.md5_digest = b.md5_digest ∧
          a.file_size = b.file_size ∧ a.type = b.type)

/-- Primary-key equality for `update_state`: `(session_id, entity_id)`. -/
def update_state_pk (a b : UpdateStateRow) : Bool :=
  decide (a.session_id = b.session_id ∧ a.entity_id = b.entity_id)

/-- `db.merge(r)`: replace the row with `r`'s primary key if present,
insert otherwise. -/
def upsert (pk : α → α → Bool) (rows : List α) (r : α) : List α :=
  rows.filter (fun x => ! pk x r) ++ [r]

/-- `Query.one_or_none()`: `none` on zero matches, the row on exactly
one, raises `MultipleResultsFound` on several. -/
def one_or_none (l : List α) : Except PyErr (Option α) :=
  match l with
  | [] => .ok none
  | [a] => .ok (some a)
  | _ => .error .multipleResults

/-! ## Session-scoped row access (`AlchemySession`, lines 121-125, 189-192) -/

/-- `select_all(self.sessions)` / `_db_query(self.Session)` row scope:
rows of `sessions` with this session identifier (lines 121-125). -/
def sessions_for (sid : String) (st : Store) : List SessionRow :=
  st.sessions.filter (fun r => decide (r.session_id = sid))

/-- `_db_query(self.Entity)` row scope (lines 189-192). -/
def entities_for (sid : String) (st : Store) : List EntityRow :=
  st.entities.filter (fun r => decide (r.session_id = sid))

/-- `_db_query(self.SentFile)` row scope. -/
def sent_files_for (sid : String) (st : Store) : List SentFileRow :=
  st.sentFiles.filter (fun r => decide (r.session_id = sid))

/-- `select_all(self.update_state)` / `UpdateState.query` row scope. -/
def update_states_for (sid : String) (st : Store) : List UpdateStateRow :=
  st.updateStates.filter (fun r => decide (r.session_id = sid))

/-! ## Session handle operations (`AlchemySession`) -/

/-- `_load_session` (lines 127-131): read the first `sessions` row of
this session identifier; if present, unpack `dc_id`, `server_address`,
`port` and wrap the stored blob in `AuthKey(data=auth_key)`.  With no
row the in-memory fields are left as they are. -/
def load_session (sid : String) (st : Store) (m : MemState) : MemState :=
  match (sessions_for sid st).head? with
  | none => m
  | some r =>
    { m with dc_id := r.dc_id, server_address := r.server_address,
             port := r.port, auth_key := some (AuthKey.ofData r.auth_key) }

/-- `new_session(session_id)` (lines 100-101, 111-119): construct a
handle, which runs `_load_session` over fresh `MemorySession` state. -/
def new_session (sid : String) (st : Store) : MemState :=
  load_session sid st MemState.initial

/-- `_update_session_table` (lines 179-187): delete every `sessions` row
of this session identifier, then merge a row built from the in-memory
fields; the stored blob is `self._auth_key.key if self._auth_key else
b''` — the empty blob when there is no `AuthKey` wrapper, the wrapper's
(possibly NULL) key bytes otherwise. -/
def update_session_table (sid : String) (m : MemState) (st : Store) : Store :=
  { st with sessions :=
      (upsert session_pk
        (st.sessions.filter (fun r => ! decide (r.session_id = sid)))
        { session_id := sid, dc_id := m.dc_id,
          server_address := m.server_address, port := m.port,
          auth_key := (match m.auth_key with
                       | some k => k.key
                       | none => some []) }) }

/-- `set_dc` (lines 136-145): assign the three in-memory fields
(`MemorySession.set_dc`), rewrite the `sessions` row, then re-derive
the in-memory auth key from the first stored row: a present row with
truthy (non-empty, non-NULL) `auth_key` bytes yields
`AuthKey(data=...)`, anything else yields no key. -/
def set_dc (sid : String) (dc : Int) (addr : String) (prt : Int)
    (m : MemState) (st : Store) : MemState × Store :=
  let m1 := { m with dc_id := dc, server_address := some addr, port := some prt }
  let st1 := update_session_table sid m1 st
  let m2 :=
    match (sessions_for sid st1).head? with
    | some r =>
      match r.auth_key with
      | some d =>
        if d = [] then { m1 with auth_key := none }
        else { m1 with auth_key := some (AuthKey.ofData (some d)) }
      | none => { m1 with auth_key := none }
    | none => { m1 with auth_key := none }
  (m2, st1)

/-- The attribute values a peer observation carries
(`_entity_values_to_row` parameters, lines 206-208). -/
structure EntityVals where
  id : Int
  hash : Int
  username : Option String
  phone : Option Int
  name : Option String
deriving DecidableEq, Repr

/-- `_entity_values_to_row` (lines 206-208): build an `entities` row
scoped to this session identifier. -/
def entity_values_to_row (sid : String) (v : EntityVals) : EntityRow :=
  ⟨sid, v.id, v.hash, v.username, v.phone, v.name⟩

/-- `process_entities` (lines 210-217): an empty batch returns without
writing or saving; otherwise each row is merged and `save()` is called.
The returned flag records whether `save()` ran. -/
def process_entities (sid : String) (vals : List EntityVals) (st : Store) :
    Store × Bool :=
  match vals with
  | [] => (st, false)
  | _ =>
    (vals.foldl
      (fun s v =>
        { s with entities := upsert entity_pk s.entities (entity_values_to_row sid v) })
      st, true)

/-- `get_entity_rows_by_phone` (lines 219-222). -/
def get_entity_rows_by_phone (sid : String) (key : Int) (st : Store) :
    Except PyErr (Option (Int × Int)) :=
  (one_or_none ((entities_for sid st).filter (fun r => decide (r.phone = some key)))).map
    (Option.map (fun r => (r.id, r.hash)))

/-- `get_entity_rows_by_username` (lines 224-227). -/
def get_entity_rows_by_username (sid : String) (key : String) (st : Store) :
    Except PyErr (Option (Int × Int)) :=
  (one_or_none ((entities_for sid st).filter (fun r => decide (r.username = some key)))).map
    (Option.map (fun r => (r.id, r.hash)))

/-- `get_entity_rows_by_name` (lines 229-232). -/
def get_entity_rows_by_name (sid : String) (key : String) (st : Store) :
    Except PyErr (Option (Int × Int)) :=
  (one_or_none ((entities_for sid st).filter (fun r => decide (r.name = some key)))).map
    (Option.map (fun r => (r.id, r.hash)))

/-- `get_entity_rows_by_id` (lines 234-246): with `exact` the query is
`id == key`; otherwise `id IN` the three peer-kind interpretations of
the raw id. -/
def get_entity_rows_by_id (sid : String) (key : Int) (ex : Bool) (st : Store) :
    Except PyErr (Option (Int × Int)) :=
  (one_or_none
    (if ex then (entities_for sid st).filter (fun r => decide (r.id = key))
     else (entities_for sid st).filter
       (fun r => decide (r.id = get_peer_id_user key ∨ r.id = get_peer_id_chat key ∨
                         r.id = get_peer_id_channel key)))).map
    (Option.map (fun r => (r.id, r.hash)))

/-- `get_file` (lines 248-254): lookup by digest, size and kind. -/
def get_file (sid : String) (md5 : Bytes) (size : Int) (kind : SentFileType)
    (st : Store) : Except PyErr (Option (Int × Int)) :=
  (one_or_none ((sent_files_for sid st).filter
    (fun r => decide (r.md5_digest = md5 ∧ r.file_size = some size ∧
                      r.type = kind.val)))).map
    (Option.map (fun r => (r.id, r.hash)))

/-- `cache_file` (lines 256-264): reject unrecognized reference kinds
with `TypeError`; for the two recognized kinds merge a `sent_files`
row.  The source constructor call passes `session_id`, `md5_digest`,
`type`, `id` and `hash` but NOT `file_size` (lines 260-263), so the
stored row's `file_size` is NULL.  The flag records that `save()` ran. -/
def cache_file (sid : String) (md5 : Bytes) (size : Int) (inst : FileRef)
    (st : Store) : Except PyErr (Store × Bool) :=
  match inst with
  | .other => .error .typeError
  | .photo i h =>
    .ok ({ st with sentFiles :=
            (upsert sent_file_pk st.sentFiles
              ⟨sid, md5, none, SentFileType.photo.val, i, h⟩) }, true)
  | .document i h =>
    .ok ({ st with sentFiles :=
            (upsert sent_file_pk st.sentFiles
              ⟨sid, md5, none, SentFileType.document.val, i, h⟩) }, true)

/-- The store after a `cache_file` call; a raised `TypeError` leaves the
store unchanged. -/
def cache_file_store (sid : String) (md5 : Bytes) (size : Int) (inst : FileRef)
    (st : Store) : Store :=
  match cache_file sid md5 size inst st with
  | .ok (st1, _) => st1
  | .error _ => st

/-- `_row_to_update_state` (lines 147-152): rebuild an update-state
value from a row, the stored integer `date` being seconds since the
Unix epoch in UTC; `None` stays `None`. -/
def row_to_update_state : Option UpdateStateRow → Option UpdatesState
  | none => none
  | some r => some ⟨r.pts, r.qts, r.date, r.seq, r.unread_count⟩

/-- `get_update_state` (lines 162-163): the source fetches the FIRST
`update_state` row of the session (`select_all(...).fetchone()`) — the
`entity_id` parameter is never used in the body. -/
def get_update_state (sid : String) (entity_id : Int) (st : Store) :
    Option UpdatesState :=
  row_to_update_state (update_states_for sid st).head?

/-- `iter_update_states` (lines 154-160): all cursors of the session
whose `entity_id` is not 0. -/
def iter_update_states (sid : String) (st : Store) : List (Int × UpdatesState) :=
  (update_states_for sid st).filterMap
    (fun r =>
      if r.entity_id ≠ 0 then (row_to_update_state (some r)).map (fun s => (r.entity_id, s))
      else none)

/-- `set_update_state` (lines 165-172): with a falsy (`None`) state the
body is skipped entirely — no merge, no `save()`; otherwise merge the
row (the timestamp is stored back as its integer seconds) and save.
The flag records whether `save()` ran. -/
def set_update_state (sid : String) (entity_id : Int) (row : Option UpdatesState)
    (st : Store) : Store × Bool :=
  match row with
  | none => (st, false)
  | some u =>
    ({ st with updateStates :=
        (upsert update_state_pk st.updateStates
          ⟨sid, entity_id, u.pts, u.qts, u.date, u.seq, u.unread_count⟩) }, true)

/-! ## Concrete stores used by the claim theorems -/

/-- A store at recorded schema version 1: `version` row holds `1`, no
`update_state` table yet, some pre-existing `sessions`/`entities` rows. -/
def version1_store : Store :=
  { versionRows := [1], hasUpdateStateTable := false,
    hasUnreadCountColumn := false,
    sessions := [⟨"abc", 2, some "addr", some 443, some [1]⟩],
    entities := [⟨"abc", 777000, 123, some "BotFather", none, none⟩],
    sentFiles := [], updateStates := [] }

/-- A store whose recorded version already equals `LATEST_VERSION`. -/
def latest_store : Store := { Store.empty with versionRows := [LATEST_VERSION] }

/-- A store with a single update cursor row keyed at entity 5. -/
def cursor5_store : Store :=
  { Store.empty with updateStates := [⟨"s", 5, 10, 20, 30, 40, some 6⟩] }

/-- A store in which two entity rows of one session share phone 99. -/
def dup_phone_store : Store :=
  { Store.empty with
    entities := [⟨"s", 1, 11, none, some 99, none⟩,
                 ⟨"s", 2, 22, none, some 99, none⟩] }

/-- A store in which entity ids `5` and `-5` both exist for one session,
so the user and basic-group interpretations of raw id 5 both match. -/
def dup_marked_store : Store :=
  { Store.empty with
    entities := [⟨"s", 5, 11, none, none, none⟩,
                 ⟨"s", -5, 22, none, none, none⟩] }

/-- A store holding exactly one entity row with id 5. -/
def one_entity_store : Store :=
  { Store.empty with entities := [⟨"s", 5, 11, none, none, none⟩] }

/-! ## Claim theorems -/

/-- C1: for a store seeded at schema version 1, `check_and_upgrade_database`
does NOT terminate without error: reading the stored version evaluates
`row[0][0]` on the integer `1`, which raises `TypeError` before any
upgrade step runs.  (The claim as stated fails on the code; see also the
`self.version.version` column reference, which is itself not a valid
`Table` attribute.) -/
theorem C1_migration_from_v1_raises :
    check_and_upgrade_database version1_store = .error .typeError := rfl

/-- C3: running the migration twice in a row leaves, after the second
run, exactly the store state left by the first run; in particular when
the stored version already equals `LATEST_VERSION` a run changes
nothing (it applies no upgrade step). -/
theorem C3_migration_idempotent (st : Store) :
    run_migration (run_migration st) = run_migration st ∧
    (st.versionRows = [LATEST_VERSION] → run_migration st = st) := by
  constructor
  · rcases st with ⟨vr, hus, huc, ss, es, sf, us⟩
    rcases vr with _ | ⟨v, t⟩
    · cases hus <;>
        simp [run_migration, check_and_upgrade_database, read_version_expr,
              create_update_state_table, set_version_rows, LATEST_VERSION]
    · by_cases hv : v = 0
      · subst hv
        cases hus <;>
          simp [run_migration, check_and_upgrade_database, read_version_expr,
                create_update_state_table, set_version_rows, LATEST_VERSION]
      · simp [run_migration, check_and_upgrade_database, read_version_expr, hv]
  · intro h
    simp [run_migration, check_and_upgrade_database, read_version_expr, h,
          LATEST_VERSION]

/-- Witness for C3 at concrete stores: the empty store for the
idempotence half, a store recorded at `LATEST_VERSION` for the
no-upgrade-step half. -/
theorem C3_migration_idempotent_witness :
    run_migration (run_migration Store.empty) = run_migration Store.empty ∧
    run_migration latest_store = latest_store :=
  ⟨(C3_migration_idempotent Store.empty).1,
   (C3_migration_idempotent latest_store).2 rfl⟩

/-- C4: `get_update_state` does NOT return the cursor keyed
`(session_id, entity_id)`: the session holds a single cursor row keyed
at entity 5, yet `get_update_state` for entity 7 returns that cursor
rather than an absent value, and the result is identical for any other
entity id — the source ignores its `entity_id` argument and takes the
first row of the session. -/
theorem C4_get_update_state_ignores_entity_id :
    get_update_state "s" 7 cursor5_store = some ⟨10, 20, 30, 40, some 6⟩ ∧
    get_update_state "s" 7 cursor5_store = get_update_state "s" 999 cursor5_store := by
  exact ⟨rfl, rfl⟩

/-- C7: `cache_file` accepts the photo reference without raising, but
the merged `sent_files` row carries NULL `file_size` (the source
constructor call omits it), so the entry is not keyed by the supplied
size and `get_file` with the very key the claim names finds nothing;
an unrecognized reference kind raises `TypeError` as claimed. -/
theorem C7_cache_file_drops_file_size :
    cache_file "s" [1, 2] 100 (.photo 7 8) Store.empty =
      .ok ({ Store.empty with
              sentFiles := [⟨"s", [1, 2], none, SentFileType.photo.val, 7, 8⟩] },
           true) ∧
    get_file "s" [1, 2] 100 .photo
        (cache_file_store "s" [1, 2] 100 (.photo 7 8) Store.empty) = .ok none ∧
    cache_file "s" [1, 2] 100 .other Store.empty = .error .typeError := by
  exact ⟨rfl, rfl, rfl⟩

/-- C8: on a fresh empty store, `new_session("abc")`, then
`set_dc(2, "149.154.167.51", 443)`, then a load yields dc 2, that
address, that port, and no effective auth key: the stored blob is the
empty byte string and `AuthKey` of empty bytes holds no key. -/
theorem C8_fresh_store_set_dc_load :
    (load_session "abc"
        (set_dc "abc" 2 "149.154.167.51" 443 (new_session "abc" Store.empty)
          Store.empty).2
        (set_dc "abc" 2 "149.154.167.51" 443 (new_session "abc" Store.empty)
          Store.empty).1).dc_id = 2 ∧
    (load_session "abc"
        (set_dc "abc" 2 "149.154.167.51" 443 (new_session "abc" Store.empty)
          Store.empty).2
        (set_dc "abc" 2 "149.154.167.51" 443 (new_session "abc" Store.empty)
          Store.empty).1).server_address = some "149.154.167.51" ∧
    (load_session "abc"
        (set_dc "abc" 2 "149.154.167.51" 443 (new_session "abc" Store.empty)
          Store.empty).2
        (set_dc "abc" 2 "149.154.167.51" 443 (new_session "abc" Store.empty)
          Store.empty).1).port = some 443 ∧
    (load_session "abc"
        (set_dc "abc" 2 "149.154.167.51" 443 (new_session "abc" Store.empty)
          Store.empty).2
        (set_dc "abc" 2 "149.154.167.51" 443 (new_session "abc" Store.empty)
          Store.empty).1).auth_key = some (AuthKey.ofData (some [])) ∧
    AuthKey.ofData (some []) = ⟨none⟩ ∧
    (sessions_for "abc"
        (set_dc "abc" 2 "149.154.167.51" 443 (new_session "abc" Store.empty)
          Store.empty).2).map (fun r => r.auth_key) = [some []] := by
  exact ⟨rfl, rfl, rfl, rfl, rfl, rfl⟩

/-- C10: `set_update_state` with an absent (`None`) state value leaves
the store unchanged and issues no save: the entire method body sits
under `if row:`. -/
theorem C10_set_update_state_none_noop (sid : String) (eid : Int) (st : Store) :
    set_update_state sid eid none st = (st, false) := rfl

/-! ## List lemmas about filtered upserts -/

/-- Filtering by `q` first does not change a `p`-filter when `p` implies
`q`. -/
theorem filter_filter_imp {α : Type} (p q : α → Bool)
    (himp : ∀ x, p x = true → q x = true) (l : List α) :
    (l.filter q).filter p = l.filter p := by
  induction l with
  | nil => rfl
  | cons a t ih =>
    cases hp : p a with
    | true =>
      have hq : q a = true := himp a hp
      simp [List.filter_cons, hq, hp, ih]
    | false =>
      cases hq : q a with
      | true => simp [List.filter_cons, hq, hp, ih]
      | false => simp [List.filter_cons, hq, hp, ih]

/-- An upsert whose new row fails `p`, and whose removal predicate `q`
keeps every `p`-row, is invisible to a `p`-filter. -/
theorem filter_upsert_ne {α : Type} (p q : α → Bool) (l : List α) (r : α)
    (hr : p r = false) (himp : ∀ x, p x = true → q x = true) :
    ((l.filter q) ++ [r]).filter p = l.filter p := by
  rw [List.filter_append, filter_filter_imp p q himp l]
  simp [List.filter_cons, hr]

/-- Rows surviving the complement of `p` never pass `p`. -/
theorem filter_not_filter {α : Type} (p : α → Bool) (l : List α) :
    (l.filter (fun x => ! p x)).filter p = [] := by
  induction l with
  | nil => rfl
  | cons a t ih =>
    cases hp : p a <;> simp [List.filter_cons, hp, ih]

/-- An upsert whose removal predicate is exactly the complement of `p`,
with a new row passing `p`, leaves the new row as the only `p`-row. -/
theorem filter_upsert_self {α : Type} (p q : α → Bool) (l : List α) (r : α)
    (hr : p r = true) (hq : q = fun x => ! p x) :
    ((l.filter q) ++ [r]).filter p = [r] := by
  subst hq
  rw [List.filter_append, filter_not_filter]
  simp [List.filter_cons, hr]

/-! ## Lemmas about `one_or_none` -/

theorem one_or_none_map_of_nil {α β : Type} (g : α → β) (l : List α)
    (h : l = []) :
    (one_or_none l).map (Option.map g) = .ok none := by
  subst h; rfl

theorem one_or_none_map_of_singleton {α β : Type} (g : α → β) (l : List α)
    (a : α) (h : l = [a]) :
    (one_or_none l).map (Option.map g) = .ok (some (g a)) := by
  subst h; rfl

theorem one_or_none_map_ne_error {α β : Type} (g : α → β) (l : List α)
    (h : l.length ≤ 1) (e : PyErr) :
    (one_or_none l).map (Option.map g) ≠ .error e := by
  rcases l with _ | ⟨a, _ | ⟨b, t⟩⟩
  · simp [one_or_none, Except.map]
  · simp [one_or_none, Except.map]
  · simp at h

/-! ## Session-isolation machinery (C2) -/

/-- All nine session-scoped reads of the source agree on two stores. -/
def reads_agree (sid : String) (a b : Store) : Prop :=
  (∀ m, load_session sid a m = load_session sid b m) ∧
  (∀ k, get_entity_rows_by_phone sid k a = get_entity_rows_by_phone sid k b) ∧
  (∀ k, get_entity_rows_by_username sid k a = get_entity_rows_by_username sid k b) ∧
  (∀ k, get_entity_rows_by_name sid k a = get_entity_rows_by_name sid k b) ∧
  (∀ k ex, get_entity_rows_by_id sid k ex a = get_entity_rows_by_id sid k ex b) ∧
  (∀ d sz c, get_file sid d sz c a = get_file sid d sz c b) ∧
  (∀ e, get_update_state sid e a = get_update_state sid e b) ∧
  iter_update_states sid a = iter_update_states sid b

/-- Every read factors through the session-scoped row lists, so equal
scoped lists give equal reads. -/
theorem reads_agree_of_filters (sid : String) (a b : Store)
    (h1 : sessions_for sid a = sessions_for sid b)
    (h2 : entities_for sid a = entities_for sid b)
    (h3 : sent_files_for sid a = sent_files_for sid b)
    (h4 : update_states_for sid a = update_states_for sid b) :
    reads_agree sid a b := by
  refine ⟨fun m => ?_, fun k => ?_, fun k => ?_, fun k => ?_, fun k ex => ?_,
          fun d sz c => ?_, fun e => ?_, ?_⟩
  · unfold load_session; rw [h1]
  · unfold get_entity_rows_by_phone; rw [h2]
  · unfold get_entity_rows_by_username; rw [h2]
  · unfold get_entity_rows_by_name; rw [h2]
  · unfold get_entity_rows_by_id; rw [h2]
  · unfold get_file; rw [h3]
  · unfold get_update_state; rw [h4]
  · unfold iter_update_states; rw [h4]

/-- The credential upsert of `s1` leaves the `sessions` rows scoped to a
different identifier untouched. -/
theorem sessions_for_update_ne (s1 s2 : String) (h : s1 ≠ s2) (m : MemState)
    (st : Store) :
    sessions_for s2 (update_session_table s1 m st) = sessions_for s2 st := by
  unfold sessions_for update_session_table upsert
  refine (filter_upsert_ne _ _ _ _ ?_ ?_).trans (filter_filter_imp _ _ ?_ _)
  · exact decide_eq_false h
  · intro x hx
    simp only [decide_eq_true_eq] at hx
    have hx2 : x.session_id ≠ s1 := by rw [hx]; exact fun hh => h hh.symm
    simp [session_pk, hx2]
  · intro x hx
    simp only [decide_eq_true_eq] at hx
    have hx2 : x.session_id ≠ s1 := by rw [hx]; exact fun hh => h hh.symm
    simp [hx2]

/-- One entity merge of `s1` is invisible to the entity rows of a
different identifier; stated over the fold used by `process_entities`. -/
theorem entities_for_foldl_ne (s1 s2 : String) (h : s1 ≠ s2)
    (vals : List EntityVals) :
    ∀ st : Store,
      entities_for s2
        (vals.foldl
          (fun s v =>
            { s with entities := upsert entity_pk s.entities (entity_values_to_row s1 v) })
          st) = entities_for s2 st := by
  induction vals with
  | nil => intro st; rfl
  | cons v t ih =>
    intro st
    rw [List.foldl_cons, ih]
    unfold entities_for upsert
    refine filter_upsert_ne _ _ _ _ ?_ ?_
    · exact decide_eq_false h
    · intro x hx
      simp only [decide_eq_true_eq] at hx
      have hx2 : x.session_id ≠ s1 := by rw [hx]; exact fun hh => h hh.symm
      simp [entity_pk, entity_values_to_row, hx2]

theorem entities_for_process_ne (s1 s2 : String) (h : s1 ≠ s2)
    (vals : List EntityVals) (st : Store) :
    entities_for s2 ((process_entities s1 vals st).1) = entities_for s2 st := by
  cases vals with
  | nil => rfl
  | cons v t => exact entities_for_foldl_ne s1 s2 h (v :: t) st

/-- The entity fold touches no table other than `entities`. -/
theorem foldl_entities_other_tables (s1 : String) (vals : List EntityVals) :
    ∀ st : Store,
      ((vals.foldl
        (fun s v =>
          { s with entities := upsert entity_pk s.entities (entity_values_to_row s1 v) })
        st)).sessions = st.sessions ∧
      ((vals.foldl
        (fun s v =>
          { s with entities := upsert entity_pk s.entities (entity_values_to_row s1 v) })
        st)).sentFiles = st.sentFiles ∧
      ((vals.foldl
        (fun s v =>
          { s with entities := upsert entity_pk s.entities (entity_values_to_row s1 v) })
        st)).updateStates = st.updateStates := by
  induction vals with
  | nil => intro st; exact ⟨rfl, rfl, rfl⟩
  | cons v t ih =>
    intro st
    rw [List.foldl_cons]
    exact ih _

theorem process_entities_other_tables (s1 : String) (vals : List EntityVals)
    (st : Store) :
    ((process_entities s1 vals st).1).sessions = st.sessions ∧
    ((process_entities s1 vals st).1).sentFiles = st.sentFiles ∧
    ((process_entities s1 vals st).1).updateStates = st.updateStates := by
  cases vals with
  | nil => exact ⟨rfl, rfl, rfl⟩
  | cons v t => exact foldl_entities_other_tables s1 (v :: t) st

theorem sessions_for_of_eq (sid : String) (a b : Store)
    (hh : a.sessions = b.sessions) : sessions_for sid a = sessions_for sid b := by
  unfold sessions_for; rw [hh]

theorem sent_files_for_of_eq (sid : String) (a b : Store)
    (hh : a.sentFiles = b.sentFiles) :
    sent_files_for sid a = sent_files_for sid b := by
  unfold sent_files_for; rw [hh]

theorem update_states_for_of_eq (sid : String) (a b : Store)
    (hh : a.updateStates = b.updateStates) :
    update_states_for sid a = update_states_for sid b := by
  unfold update_states_for; rw [hh]

/-- The file-cache upsert of `s1` leaves the `sent_files` rows scoped to
a different identifier untouched. -/
theorem sent_files_for_cache_ne (s1 s2 : String) (h : s1 ≠ s2) (md5 : Bytes)
    (size : Int) (inst : FileRef) (st : Store) :
    sent_files_for s2 (cache_file_store s1 md5 size inst st) =
      sent_files_for s2 st := by
  cases inst with
  | other => rfl
  | photo i ah =>
    simp only [sent_files_for, cache_file_store, cache_file, upsert]
    refine filter_upsert_ne _ _ _ _ ?_ ?_
    · exact decide_eq_false h
    · intro x hx
      simp only [decide_eq_true_eq] at hx
      have hx2 : x.session_id ≠ s1 := by rw [hx]; exact fun hh => h hh.symm
      simp [sent_file_pk, hx2]
  | document i ah =>
    simp only [sent_files_for, cache_file_store, cache_file, upsert]
    refine filter_upsert_ne _ _ _ _ ?_ ?_
    · exact decide_eq_false h
    · intro x hx
      simp only [decide_eq_true_eq] at hx
      have hx2 : x.session_id ≠ s1 := by rw [hx]; exact fun hh => h hh.symm
      simp [sent_file_pk, hx2]

/-- The cursor upsert of `s1` leaves the `update_state` rows scoped to a
different identifier untouched. -/
theorem update_states_for_set_ne (s1 s2 : String) (h : s1 ≠ s2) (eid : Int)
    (urow : Option UpdatesState) (st : Store) :
    update_states_for s2 ((set_update_state s1 eid urow st).1) =
      update_states_for s2 st := by
  cases urow with
  | none => rfl
  | some u =>
    simp only [update_states_for, set_update_state, upsert]
    refine filter_upsert_ne _ _ _ _ ?_ ?_
    · exact decide_eq_false h
    · intro x hx
      simp only [decide_eq_true_eq] at hx
      have hx2 : x.session_id ≠ s1 := by rw [hx]; exact fun hh => h hh.symm
      simp [update_state_pk, hx2]

/-- C2: for distinct session identifiers `s1 ≠ s2`, each of the four
writes scoped to `s1` (credential upsert, entity upsert, file-cache
upsert, cursor upsert) is invisible to every read scoped to `s2`
(load, the four entity lookups, the file lookup, the cursor lookup and
the cursor iteration). -/
theorem C2_session_isolation (s1 s2 : String) (h : s1 ≠ s2) (st : Store)
    (m : MemState) (vals : List EntityVals) (md5 : Bytes) (size : Int)
    (inst : FileRef) (eid : Int) (urow : Option UpdatesState) :
    reads_agree s2 (update_session_table s1 m st) st ∧
    reads_agree s2 ((process_entities s1 vals st).1) st ∧
    reads_agree s2 (cache_file_store s1 md5 size inst st) st ∧
    reads_agree s2 ((set_update_state s1 eid urow st).1) st := by
  refine ⟨reads_agree_of_filters _ _ _ (sessions_for_update_ne s1 s2 h m st) rfl rfl rfl,
          reads_agree_of_filters _ _ _
            (sessions_for_of_eq _ _ _ (process_entities_other_tables s1 vals st).1)
            (entities_for_process_ne s1 s2 h vals st)
            (sent_files_for_of_eq _ _ _ (process_entities_other_tables s1 vals st).2.1)
            (update_states_for_of_eq _ _ _ (process_entities_other_tables s1 vals st).2.2),
          reads_agree_of_filters _ _ _ ?_ ?_
            (sent_files_for_cache_ne s1 s2 h md5 size inst st) ?_,
          reads_agree_of_filters _ _ _ ?_ ?_ ?_
            (update_states_for_set_ne s1 s2 h eid urow st)⟩
  · cases inst <;> rfl
  · cases inst <;> rfl
  · cases inst <;> rfl
  · cases urow <;> rfl
  · cases urow <;> rfl
  · cases urow <;> rfl

/-- Witness for C2 at concrete distinct identifiers and concrete write
arguments. -/
theorem C2_session_isolation_witness :
    reads_agree "s2" (update_session_table "s1" MemState.initial Store.empty)
      Store.empty ∧
    reads_agree "s2"
      ((process_entities "s1" [⟨1, 2, none, none, none⟩] Store.empty).1)
      Store.empty ∧
    reads_agree "s2"
      (cache_file_store "s1" [1] 5 (.photo 7 8) Store.empty) Store.empty ∧
    reads_agree "s2"
      ((set_update_state "s1" 0 (some ⟨1, 2, 3, 4, none⟩) Store.empty).1)
      Store.empty :=
  C2_session_isolation "s1" "s2" (by decide) Store.empty MemState.initial
    [⟨1, 2, none, none, none⟩] [1] 5 (.photo 7 8) 0 (some ⟨1, 2, 3, 4, none⟩)

/-! ## Lookup totality (C5) and by-id resolution (C9) -/

/-- C5 counterexample: with two entity rows of one session sharing
phone 99 (a state the spec itself allows, the phone path being
non-unique), the phone lookup raises `MultipleResultsFound` — it does
not return an absent value, refuting "never raises an exception". -/
theorem C5_counterexample_duplicate_phone :
    get_entity_rows_by_phone "s" 99 dup_phone_store = .error .multipleResults := rfl

/-- C5 amended: every lookup returns an explicit absent value when
nothing matches; each lookup raises nothing provided at most one row
matches its key (the source uses `one_or_none`, which raises
`MultipleResultsFound` as soon as several rows match); the cursor
lookup returns an absent value when the session has no cursor rows and
never raises by construction. -/
theorem C5_amended_lookups_total (sid : String) (st : Store) (pk : Int)
    (uk nk : String) (idk : Int) (ex : Bool) (d : Bytes) (sz : Int)
    (c : SentFileType) (eid : Int) :
    ((entities_for sid st).filter (fun r => decide (r.phone = some pk)) = [] →
      get_entity_rows_by_phone sid pk st = .ok none) ∧
    (((entities_for sid st).filter (fun r => decide (r.phone = some pk))).length ≤ 1 →
      ∀ e, get_entity_rows_by_phone sid pk st ≠ .error e) ∧
    ((entities_for sid st).filter (fun r => decide (r.username = some uk)) = [] →
      get_entity_rows_by_username sid uk st = .ok none) ∧
    (((entities_for sid st).filter (fun r => decide (r.username = some uk))).length ≤ 1 →
      ∀ e, get_entity_rows_by_username sid uk st ≠ .error e) ∧
    ((entities_for sid st).filter (fun r => decide (r.name = some nk)) = [] →
      get_entity_rows_by_name sid nk st = .ok none) ∧
    (((entities_for sid st).filter (fun r => decide (r.name = some nk))).length ≤ 1 →
      ∀ e, get_entity_rows_by_name sid nk st ≠ .error e) ∧
    ((if ex then (entities_for sid st).filter (fun r => decide (r.id = idk))
      else (entities_for sid st).filter
        (fun r => decide (r.id = get_peer_id_user idk ∨ r.id = get_peer_id_chat idk ∨
                          r.id = get_peer_id_channel idk))) = [] →
      get_entity_rows_by_id sid idk ex st = .ok none) ∧
    ((if ex then (entities_for sid st).filter (fun r => decide (r.id = idk))
      else (entities_for sid st).filter
        (fun r => decide (r.id = get_peer_id_user idk ∨ r.id = get_peer_id_chat idk ∨
                          r.id = get_peer_id_channel idk))).length ≤ 1 →
      ∀ e, get_entity_rows_by_id sid idk ex st ≠ .error e) ∧
    ((sent_files_for sid st).filter
        (fun r => decide (r.md5_digest = d ∧ r.file_size = some sz ∧ r.type = c.val)) = [] →
      get_file sid d sz c st = .ok none) ∧
    (((sent_files_for sid st).filter
        (fun r => decide (r.md5_digest = d ∧ r.file_size = some sz ∧ r.type = c.val))).length ≤ 1 →
      ∀ e, get_file sid d sz c st ≠ .error e) ∧
    (update_states_for sid st = [] → get_update_state sid eid st = none) := by
  refine ⟨fun hh => ?_, fun hh e => ?_, fun hh => ?_, fun hh e => ?_,
          fun hh => ?_, fun hh e => ?_, fun hh => ?_, fun hh e => ?_,
          fun hh => ?_, fun hh e => ?_, fun hh => ?_⟩
  · unfold get_entity_rows_by_phone
    exact one_or_none_map_of_nil _ _ hh
  · unfold get_entity_rows_by_phone
    exact one_or_none_map_ne_error _ _ hh e
  · unfold get_entity_rows_by_username
    exact one_or_none_map_of_nil _ _ hh
  · unfold get_entity_rows_by_username
    exact one_or_none_map_ne_error _ _ hh e
  · unfold get_entity_rows_by_name
    exact one_or_none_map_of_nil _ _ hh
  · unfold get_entity_rows_by_name
    exact one_or_none_map_ne_error _ _ hh e
  · unfold get_entity_rows_by_id
    exact one_or_none_map_of_nil _ _ hh
  · unfold get_entity_rows_by_id
    exact one_or_none_map_ne_error _ _ hh e
  · unfold get_file
    exact one_or_none_map_of_nil _ _ hh
  · unfold get_file
    exact one_or_none_map_ne_error _ _ hh e
  · unfold get_update_state
    rw [hh]
    rfl

/-- Witness for C5 at the empty store, where every match list is empty. -/
theorem C5_amended_witness :
    get_entity_rows_by_phone "w" 0 Store.empty = .ok none ∧
    get_entity_rows_by_phone "w" 0 Store.empty ≠ .error .multipleResults ∧
    get_entity_rows_by_username "w" "u" Store.empty = .ok none ∧
    get_entity_rows_by_name "w" "n" Store.empty = .ok none ∧
    get_entity_rows_by_id "w" 1 true Store.empty = .ok none ∧
    get_file "w" [] 0 .photo Store.empty = .ok none ∧
    get_update_state "w" 0 Store.empty = none := by
  obtain ⟨a1, a2, a3, a4, a5, a6, a7, a8, a9, a10, a11⟩ :=
    C5_amended_lookups_total "w" Store.empty 0 "u" "n" 1 true [] 0 .photo 0
  exact ⟨a1 rfl, a2 (by decide) .multipleResults, a3 rfl, a5 rfl, a7 rfl,
         a9 rfl, a11 rfl⟩

/-- C6: merging an entity twice under the same `(session_id, entity_id)`
key with different attribute values leaves exactly one `entities` row
for that key, and that row carries the attribute values of the second
write. -/
theorem C6_entity_upsert_last_write_wins (sid : String) (st : Store) (eid : Int)
    (v1 v2 : EntityVals) (h1 : v1.id = eid) (h2 : v2.id = eid) (hne : v1 ≠ v2) :
    (((process_entities sid [v2] ((process_entities sid [v1] st).1)).1).entities).filter
        (fun r => decide (r.session_id = sid ∧ r.id = eid)) =
      [entity_values_to_row sid v2] := by
  have hq : (fun x : EntityRow => ! entity_pk x (entity_values_to_row sid v2)) =
      (fun x : EntityRow => ! decide (x.session_id = sid ∧ x.id = eid)) := by
    funext x
    have hpk : entity_pk x (entity_values_to_row sid v2) =
        decide (x.session_id = sid ∧ x.id = eid) := by
      unfold entity_pk entity_values_to_row
      rw [decide_eq_decide, h2]
    rw [hpk]
  exact filter_upsert_self _ _ _ _ (by simp [entity_values_to_row, h2]) hq

/-- Witness for C6: two observations of entity 5 with different hashes. -/
theorem C6_entity_upsert_witness :
    (((process_entities "s" [⟨5, 2, none, none, none⟩]
        ((process_entities "s" [⟨5, 1, none, none, none⟩] Store.empty).1)).1).entities).filter
        (fun r => decide (r.session_id = "s" ∧ r.id = 5)) =
      [entity_values_to_row "s" ⟨5, 2, none, none, none⟩] :=
  C6_entity_upsert_last_write_wins "s" Store.empty 5 ⟨5, 1, none, none, none⟩
    ⟨5, 2, none, none, none⟩ rfl rfl (by decide)

/-- C9 counterexample: entity ids 5 and -5 both stored for one session;
the inexact lookup on raw id 5 matches both the user and basic-group
interpretations and raises `MultipleResultsFound` instead of returning
a match. -/
theorem C9_counterexample_two_interpretations :
    get_entity_rows_by_id "s" 5 false dup_marked_store = .error .multipleResults := rfl

/-- C9 amended: the exact lookup returns the `(id, hash)` of the row
whose id equals the key (absent when none matches); the inexact lookup
queries the id against all three peer-kind interpretations at once and,
when at most one row matches, returns that match or an absent value —
when several interpretations match distinct rows it raises instead of
returning a match. -/
theorem C9_amended_by_id (sid : String) (key : Int) (st : Store) :
    ((entities_for sid st).filter (fun r => decide (r.id = key)) = [] →
      get_entity_rows_by_id sid key true st = .ok none) ∧
    (∀ r, (entities_for sid st).filter (fun r2 => decide (r2.id = key)) = [r] →
      get_entity_rows_by_id sid key true st = .ok (some (r.id, r.hash))) ∧
    ((entities_for sid st).filter
        (fun r => decide (r.id = get_peer_id_user key ∨ r.id = get_peer_id_chat key ∨
                          r.id = get_peer_id_channel key)) = [] →
      get_entity_rows_by_id sid key false st = .ok none) ∧
    (∀ r, (entities_for sid st).filter
        (fun r2 => decide (r2.id = get_peer_id_user key ∨ r2.id = get_peer_id_chat key ∨
                           r2.id = get_peer_id_channel key)) = [r] →
      get_entity_rows_by_id sid key false st = .ok (some (r.id, r.hash))) := by
  refine ⟨fun hh => ?_, fun r hh => ?_, fun hh => ?_, fun r hh => ?_⟩
  · unfold get_entity_rows_by_id
    exact one_or_none_map_of_nil _ _ hh
  · unfold get_entity_rows_by_id
    exact one_or_none_map_of_singleton _ _ _ hh
  · unfold get_entity_rows_by_id
    exact one_or_none_map_of_nil _ _ hh
  · unfold get_entity_rows_by_id
    exact one_or_none_map_of_singleton _ _ _ hh

/-- Witness for C9: an exact hit on a one-row store and an inexact miss
on the empty store. -/
theorem C9_amended_by_id_witness :
    get_entity_rows_by_id "s" 5 true one_entity_store = .ok (some (5, 11)) ∧
    get_entity_rows_by_id "s" 5 false Store.empty = .ok none :=
  ⟨(C9_amended_by_id "s" 5 one_entity_store).2.1 ⟨"s", 5, 11, none, none, none⟩ rfl,
   (C9_amended_by_id "s" 5 Store.empty).2.2.1 rfl⟩
